import Mathlib

/-!
Shallow embedding of the constraint-model builder in
src/timealloc/calendar_solver.py (class CalendarSolver).

The embedding covers the parameter bundle read by CalendarSolver.__init__,
the valuation of a created model instance (every pyomo Var that
_construct_ip declares), and exactly the constraint families that
_construct_ip actually installs: the definitional variable constraints,
utility accounting, category duration, task validity, non-overlap, task
duration, contiguity, spread, category days, and the task-resolution
chunk constraints.  The matched-filter chunking families
(_constraints_chunking1m .. 8M), the switching bounds and the dependency
constraints are not installed by _construct_ip (their calls are commented
out), so they are not part of the feasible set.

Machine numbers are embedded as rationals.  Helper arrays produced by
timealloc.util / timealloc.util_time are not under src/ and are modelled
from the spec where needed (see the doc comments of SLOTS_PER_HOUR,
blockdiag, triu and tril).
-/

namespace TimeAlloc

/-- Source constant EPS = 1e-2 (calendar_solver.py line 17), used to avoid
rounding issues in the fractional indicator bands. -/
def EPS : ℚ := 1/100

/-- Source constant TIMELIMIT = 3e2 (line 20): the wall-clock limit that
optimize() hands to the external solver. -/
def TIMELIMIT : ℚ := 300

/-- Source constant CONT_STRIDE = 12 (line 23): granularity in hours of the
contiguity variables. -/
def CONT_STRIDE : ℕ := 12

/-- Source constant SLACK = 5 (line 26): slack for the contiguity bands
(self.slack_cont). -/
def SLACK : ℚ := 5

/-- Modelled from the spec: timealloc.util_time.SLOTS_PER_HOUR is not under
src/; the spec fixes a 15-minute slot granularity, i.e. 4 slots per hour. -/
def SLOTS_PER_HOUR : ℕ := 4

/-- self.cont_incr = CONT_STRIDE * SLOTS_PER_HOUR (line 147). -/
def contIncr : ℕ := CONT_STRIDE * SLOTS_PER_HOUR

/-- Slots per 24-hour day, incr = 24 * SLOTS_PER_HOUR (line 498). -/
def dayIncr : ℕ := 24 * SLOTS_PER_HOUR

/-- The parameter bundle read by CalendarSolver.__init__ (lines 42-76),
with numpy arrays embedded as total functions on indices; only entries
below the declared counts are ever consulted.  task_before / task_after
are read by __init__ but only used by the dependency constraints, which
_construct_ip never installs, so they are omitted here. -/
structure Params where
  num_categories : ℕ
  num_tasks : ℕ
  num_timeslots : ℕ
  task_category : ℕ → ℕ → ℚ
  category_min : ℕ → ℚ
  category_max : ℕ → ℚ
  category_days : ℕ → ℕ → ℚ
  category_total : ℕ → ℚ
  task_valid : ℕ → ℕ → ℚ
  task_duration : ℕ → ℚ
  task_chunk_min : ℕ → ℚ
  task_chunk_max : ℕ → ℚ
  task_spread : ℕ → ℚ
  utilities : ℕ → ℕ → ℚ

/-- self.cont_slots = num_timeslots / cont_incr - 1 (line 148); the model
assumes the timeslot count is a multiple of the contiguity increment, so
natural division agrees with the source's exact division. -/
def contSlots (p : Params) : ℕ := p.num_timeslots / contIncr - 1

/-- The number of rows of util.blockdiag(num_timeslots, incr) (line 499).
Modelled from the spec: util.blockdiag is not under src/; it is the
block-diagonal 0/1 matrix with one row per 24-hour day. -/
def daySlots (p : Params) : ℕ := p.num_timeslots / dayIncr

/-- Modelled from the spec: util.blockdiag row s is the indicator of the
slots of day s (a 24-hour block of dayIncr slots). -/
def blockdiag (s i : ℕ) : ℚ := if s * dayIncr ≤ i ∧ i < (s + 1) * dayIncr then 1 else 0

/-- Modelled from the spec: util.triu(n, incr) row i is the indicator of the
slots from contiguity stride i to the end of the week ("unassigned-suffix"
window). -/
def triu (i k : ℕ) : ℚ := if i * contIncr ≤ k then 1 else 0

/-- Modelled from the spec: util.tril(n, incr) row i is the indicator of the
slots from the week start through contiguity stride i ("unassigned-prefix"
window). -/
def tril (i k : ℕ) : ℚ := if k < (i + 1) * contIncr then 1 else 0

/-- A valuation of every pyomo Var that _variables() declares (lines
100-167); solving produces such a valuation.  T0_end is only declared
inside the never-installed dependency constraints and is omitted. -/
structure Assign where
  A : ℕ → ℕ → ℚ
  A_total : ℚ
  A2 : ℕ → ℕ → ℚ
  A2_total : ℚ
  A3 : ℕ → ℕ → ℚ
  A3_total : ℚ
  S : ℕ → ℕ → ℚ
  S_total : ℚ
  S_cat : ℕ → ℕ → ℚ
  S_cat_total : ℕ → ℚ
  T_end : ℕ → ℕ → ℚ
  CTu : ℕ → ℕ → ℚ
  CTl : ℕ → ℕ → ℚ
  CTu_total : ℚ
  CTl_total : ℚ
  C_total : ℕ → ℚ
  D : ℕ → ℕ → ℚ
  D_total : ℕ → ℚ

/-- pyomo Boolean domain: the variable takes value 0 or 1. -/
def isBool (x : ℚ) : Prop := x = 0 ∨ x = 1

/-- pyomo Integers domain: the rational value is an integer. -/
def isInt (x : ℚ) : Prop := x.den = 1

/-- Total slots allocated to category k (rule of constrain_cat_duration0,
lines 209-226): A weighted 1x over timeslots, A2 weighted 2x over
timeslots2, A3 weighted 3x over timeslots3. -/
def catAlloc (p : Params) (a : Assign) (k : ℕ) : ℚ :=
  (∑ i ∈ Finset.range p.num_timeslots, ∑ j ∈ Finset.range p.num_tasks,
      a.A i j * p.task_category j k)
    + 2 * (∑ i ∈ Finset.range (p.num_timeslots - 1), ∑ j ∈ Finset.range p.num_tasks,
      a.A2 i j * p.task_category j k)
    + 3 * (∑ i ∈ Finset.range (p.num_timeslots - 2), ∑ j ∈ Finset.range p.num_tasks,
      a.A3 i j * p.task_category j k)

/-- den = sum(task_category[:, k]) (line 235): number of member tasks of
category k. -/
def cat_days_den (p : Params) (k : ℕ) : ℚ :=
  ∑ j ∈ Finset.range p.num_tasks, p.task_category j k

/-- The fractional day-occupancy of category k on day s (rule of
constrain_cat_days0, lines 231-241). -/
def catDayFrac (p : Params) (a : Assign) (s k : ℕ) : ℚ :=
  (∑ j ∈ Finset.range p.num_tasks, p.task_category j k * a.S s j) / cat_days_den p k

/-- The per-timeslot load of the non-overlap rule (lines 336-345): all
indicators active at slot t, including look-back terms for 2-slot blocks
begun at t-1 and 3-slot blocks begun at t-1 or t-2. -/
def overlapLoad (p : Params) (a : Assign) (t : ℕ) : ℚ :=
  (∑ j ∈ Finset.range p.num_tasks, a.A t j)
    + (∑ j ∈ Finset.range p.num_tasks, a.A2 t j)
    + (∑ j ∈ Finset.range p.num_tasks, a.A3 t j)
    + (if 0 < t then
        (∑ j ∈ Finset.range p.num_tasks, a.A2 (t - 1) j)
          + (∑ j ∈ Finset.range p.num_tasks, a.A3 (t - 1) j)
      else 0)
    + (if 1 < t then ∑ j ∈ Finset.range p.num_tasks, a.A3 (t - 2) j else 0)

/-- Resolution-weighted total allocation of task j (rule of
constrain_task_duration, lines 366-370): A over timeslots, A2 over
timeslots2 weighted 2x, A3 over timeslots3 weighted 3x. -/
def weightedAlloc (p : Params) (a : Assign) (j : ℕ) : ℚ :=
  (∑ t ∈ Finset.range p.num_timeslots, a.A t j)
    + 2 * (∑ t ∈ Finset.range (p.num_timeslots - 1), a.A2 t j)
    + 3 * (∑ t ∈ Finset.range (p.num_timeslots - 2), a.A3 t j)

/-- The same resolution-weighted total with all three sums taken over the
full timeslot range [0, T); on feasible allocations it agrees with
weightedAlloc because late 2-slot and 3-slot starts are forced to zero. -/
def weightedAllocFull (p : Params) (a : Assign) (j : ℕ) : ℚ :=
  (∑ t ∈ Finset.range p.num_timeslots, a.A t j)
    + 2 * (∑ t ∈ Finset.range p.num_timeslots, a.A2 t j)
    + 3 * (∑ t ∈ Finset.range p.num_timeslots, a.A3 t j)

/-- summation(utilities, A) (line 381). -/
def utilTotalA (p : Params) (a : Assign) : ℚ :=
  ∑ t ∈ Finset.range p.num_timeslots, ∑ j ∈ Finset.range p.num_tasks,
    p.utilities t j * a.A t j

/-- summation(utilities, A2) (line 387); A2 is indexed over the full
timeslot range. -/
def utilTotalA2 (p : Params) (a : Assign) : ℚ :=
  ∑ t ∈ Finset.range p.num_timeslots, ∑ j ∈ Finset.range p.num_tasks,
    p.utilities t j * a.A2 t j

/-- summation(utilities, A3) (line 393). -/
def utilTotalA3 (p : Params) (a : Assign) : ℚ :=
  ∑ t ∈ Finset.range p.num_timeslots, ∑ j ∈ Finset.range p.num_tasks,
    p.utilities t j * a.A3 t j

/-- The fractional day-occupancy of task j on day s (rule of
constrain_spread0, lines 502-520). -/
def spreadFrac (p : Params) (a : Assign) (s j : ℕ) : ℚ :=
  (∑ i ∈ Finset.range p.num_timeslots,
      blockdiag s i * (a.A i j + 2 * a.A2 i j + 3 * a.A3 i j))
    / (∑ i ∈ Finset.range p.num_timeslots, blockdiag s i)

/-- The scaled unassigned-suffix fraction of task j at contiguity stride i
(rule of constrain_contiguity_u, lines 545-565): the fraction is divided by
the window size and multiplied by active = 1 - task_spread[j]. -/
def ctuFrac (p : Params) (a : Assign) (i j : ℕ) : ℚ :=
  ((∑ k ∈ Finset.range p.num_timeslots,
      triu i k * (1 - a.A k j - a.A2 k j - a.A3 k j))
    / (∑ k ∈ Finset.range p.num_timeslots, triu i k)) * (1 - p.task_spread j)

/-- The scaled unassigned-prefix fraction (rule of constrain_contiguity_l,
lines 571-590). -/
def ctlFrac (p : Params) (a : Assign) (i j : ℕ) : ℚ :=
  ((∑ k ∈ Finset.range p.num_timeslots,
      tril i k * (1 - a.A k j - a.A2 k j - a.A3 k j))
    / (∑ k ∈ Finset.range p.num_timeslots, tril i k)) * (1 - p.task_spread j)

/-- Rule of constrain_chunk_min (lines 641-654), with the source's branch
order preserved: the task_chunk_min >= 3 branch is tested only after the
task_chunk_min >= 2 branch. -/
def chunkMinCon (p : Params) (a : Assign) (j : ℕ) : Prop :=
  if 2 ≤ p.task_chunk_min j then
    (∑ i ∈ Finset.range p.num_timeslots, a.A i j) ≤ 0
  else if 3 ≤ p.task_chunk_min j then
    (∑ i ∈ Finset.range p.num_timeslots, (a.A i j + a.A2 i j)) ≤ 0
  else True

/-- Rule of constrain_chunk_max (lines 656-667). -/
def chunkMaxCon (p : Params) (a : Assign) (j : ℕ) : Prop :=
  if p.task_chunk_max j ≤ 1 then
    (∑ i ∈ Finset.range p.num_timeslots, (a.A2 i j + a.A3 i j)) ≤ 0
  else if p.task_chunk_max j ≤ 2 then
    (∑ i ∈ Finset.range p.num_timeslots, a.A3 i j) ≤ 0
  else True

/-- Feasibility of a valuation for the model that _construct_ip (lines
1110-1154) builds: the pyomo variable domains plus every constraint family
that is actually installed.  Field names follow the pyomo constraint names
of the source. -/
structure Feasible (p : Params) (a : Assign) : Prop where
  dom_A : ∀ t < p.num_timeslots, ∀ j < p.num_tasks, isBool (a.A t j)
  dom_A2 : ∀ t < p.num_timeslots, ∀ j < p.num_tasks, isBool (a.A2 t j)
  dom_A3 : ∀ t < p.num_timeslots, ∀ j < p.num_tasks, isBool (a.A3 t j)
  dom_S : ∀ s < 7, ∀ j < p.num_tasks, isInt (a.S s j)
  dom_S_cat : ∀ s < 7, ∀ k < p.num_categories, isBool (a.S_cat s k)
  dom_S_cat_total : ∀ k < p.num_categories, isInt (a.S_cat_total k)
  dom_T_end : ∀ s < 7, ∀ j < p.num_tasks, isInt (a.T_end s j) ∧
    0 ≤ a.T_end s j ∧ a.T_end s j ≤ (p.num_timeslots : ℚ) / 7 - 1
  dom_CTu : ∀ i < contSlots p, ∀ j < p.num_tasks, isInt (a.CTu i j)
  dom_CTl : ∀ i < contSlots p, ∀ j < p.num_tasks, isInt (a.CTl i j)
  dom_D : ∀ t < p.num_timeslots - 1, ∀ j < p.num_tasks, isBool (a.D t j)
  dom_D_total : ∀ j < p.num_tasks, isInt (a.D_total j)
  constrain_cat_duration0 : ∀ k < p.num_categories, a.C_total k = catAlloc p a k
  constrain_cat_days0 : ∀ s < 7, ∀ k < p.num_categories,
    -EPS ≤ a.S_cat s k - catDayFrac p a s k ∧ a.S_cat s k - catDayFrac p a s k ≤ 1 - EPS
  constrain_cat_days1 : ∀ k < p.num_categories,
    a.S_cat_total k = ∑ s ∈ Finset.range 7, a.S_cat s k
  constrain_A_total : a.A_total = utilTotalA p a
  constrain_A2_total : a.A2_total = 2 * utilTotalA2 p a
  constrain_A3_total : a.A3_total = 3 * utilTotalA3 p a
  constrain_cat_duration1 : ∀ k < p.num_categories,
    p.category_min k ≤ a.C_total k ∧ a.C_total k ≤ p.category_max k
  constrain_valid : ∀ t < p.num_timeslots, ∀ j < p.num_tasks,
    a.A t j * (1 - p.task_valid t j) = 0
  constrain_valid20 : ∀ t < p.num_timeslots, ∀ j < p.num_tasks,
    a.A2 t j * (1 - p.task_valid t j) = 0
  constrain_valid21 : ∀ t < p.num_timeslots, ∀ j < p.num_tasks,
    if t = p.num_timeslots - 1 then a.A2 t j = 0
    else a.A2 t j * (1 - p.task_valid (t + 1) j) = 0
  constrain_valid30 : ∀ t < p.num_timeslots, ∀ j < p.num_tasks,
    a.A3 t j * (1 - p.task_valid t j) = 0
  constrain_valid31 : ∀ t < p.num_timeslots, ∀ j < p.num_tasks,
    if p.num_timeslots - 2 ≤ t then a.A3 t j = 0
    else a.A3 t j * (1 - p.task_valid (t + 1) j) = 0
  constrain_valid32 : ∀ t < p.num_timeslots, ∀ j < p.num_tasks,
    if p.num_timeslots - 2 ≤ t then a.A3 t j = 0
    else a.A3 t j * (1 - p.task_valid (t + 2) j) = 0
  constrain_nonoverlapping : ∀ t < p.num_timeslots,
    0 ≤ overlapLoad p a t ∧ overlapLoad p a t ≤ 1
  constrain_task_duration : ∀ j < p.num_tasks,
    0 ≤ weightedAlloc p a j ∧ weightedAlloc p a j ≤ p.task_duration j
  constrain_contiguity_u : ∀ i < contSlots p, ∀ j < p.num_tasks,
    -1 + EPS ≤ a.CTu i j - ctuFrac p a i j ∧ a.CTu i j - ctuFrac p a i j ≤ EPS + SLACK
  constrain_contiguity_l : ∀ i < contSlots p, ∀ j < p.num_tasks,
    -1 + EPS ≤ a.CTl i j - ctlFrac p a i j ∧ a.CTl i j - ctlFrac p a i j ≤ EPS + SLACK
  constrain_contiguity_ut : a.CTu_total =
    (∑ i ∈ Finset.range (contSlots p), ∑ j ∈ Finset.range p.num_tasks, a.CTu i j)
      / ((p.num_tasks : ℚ) * (contSlots p : ℚ) * (SLACK + 1)) * (1/4)
  constrain_contiguity_lt : a.CTl_total =
    (∑ i ∈ Finset.range (contSlots p), ∑ j ∈ Finset.range p.num_tasks, a.CTl i j)
      / ((p.num_tasks : ℚ) * (contSlots p : ℚ) * (SLACK + 1)) * (1/4)
  constrain_spread0 : ∀ s < 7, ∀ j < p.num_tasks,
    -EPS ≤ a.S s j - spreadFrac p a s j ∧ a.S s j - spreadFrac p a s j ≤ 1 - EPS
  constrain_spread1 : a.S_total =
    (∑ s ∈ Finset.range 7, ∑ j ∈ Finset.range p.num_tasks, p.task_spread j * a.S s j)
      / ((p.num_tasks : ℚ) * (daySlots p : ℚ)) * 5
  constrain_cat_days2 : ∀ s < 7, ∀ k < p.num_categories,
    p.category_days s k ≤ a.S_cat s k
  constrain_cat_days3 : ∀ k < p.num_categories,
    p.category_total k ≤ a.S_cat_total k
  constrain_chunk_min : ∀ j < p.num_tasks, chunkMinCon p a j
  constrain_chunk_max : ∀ j < p.num_tasks, chunkMaxCon p a j

/-- The objective that _objective_cost installs (lines 185-200): minimize
the negated sum of the three per-resolution utility totals. -/
def obj_cost (a : Assign) : ℚ := -(a.A_total + a.A2_total + a.A3_total)

/-- Per-slot occupancy of task j at slot t, exactly the aggregation that
visualize() performs on the solved matrices (lines 1203-1208): a slot is
occupied by j if a 1-slot block sits on it, a 2-slot block starts on it or
one slot earlier, or a 3-slot block starts on it or up to two slots
earlier. -/
def occupied (a : Assign) (t j : ℕ) : ℚ :=
  a.A t j + a.A2 t j + (if 1 ≤ t then a.A2 (t - 1) j else 0)
    + a.A3 t j + (if 1 ≤ t then a.A3 (t - 1) j else 0)
    + (if 2 ≤ t then a.A3 (t - 2) j else 0)

/-- Task j exhibits an isolated block of exactly len consecutive assigned
slots starting at slot start: every slot of the block is occupied and the
two neighbouring slots (where they exist) are free. -/
def isolatedBlock (p : Params) (a : Assign) (j start len : ℕ) : Prop :=
  start + len ≤ p.num_timeslots ∧ 0 < len ∧
    (∀ d < len, occupied a (start + d) j ≠ 0) ∧
    (start = 0 ∨ occupied a (start - 1) j = 0) ∧
    (start + len = p.num_timeslots ∨ occupied a (start + len) j = 0)

/-- The keyword arguments of the opt.solve call inside optimize()
(lines 1161-1163). -/
structure SolveCall where
  timelimit : ℚ
  tee : Bool
  keepfiles : Bool
  report_timing : Bool

/-- The solver invocation optimize() makes: create_instance followed by a
synchronous opt.solve with timelimit=TIMELIMIT, tee=True, keepfiles=True,
report_timing=True. -/
def optimizeSolveCall : SolveCall :=
  { timelimit := TIMELIMIT, tee := true, keepfiles := true, report_timing := true }

/-- The wall-clock limit the external solver receives when the caller would
like the solve bounded by req: optimize() (line 1156) has no time-limit
parameter, so a requested value cannot reach the call and the solver always
receives optimizeSolveCall.timelimit = TIMELIMIT. -/
def timelimitPassed (_req : ℚ) : ℚ := optimizeSolveCall.timelimit

/-- The raw parameter bundle handed to CalendarSolver.__init__, with the
numpy arrays' storage embedded as lists so that their dimensions exist.
task_spread is the only optional parameter consulted by the installed
constraints. -/
structure RawParams where
  num_categories : ℕ
  num_tasks : ℕ
  num_timeslots : ℕ
  task_category : List (List ℚ)
  category_min : List ℚ
  category_max : List ℚ
  category_days : List (List ℚ)
  category_total : List ℚ
  task_valid : List (List ℚ)
  task_duration : List ℚ
  task_chunk_min : List ℚ
  task_chunk_max : List ℚ
  task_before : List (List ℚ)
  task_after : List (List ℚ)
  task_spread : Option (List ℚ)

/-- The spec's construction-error taxonomy.  The source defines no such
class; the type exists only to state the claimed contract of __init__. -/
inductive ConstructionError where
  | shapeMismatch
deriving DecidableEq

/-- The attributes CalendarSolver.__init__ stores (lines 42-76). -/
structure RawSolver where
  num_categories : ℕ
  num_tasks : ℕ
  num_timeslots : ℕ
  task_category : List (List ℚ)
  category_min : List ℚ
  category_max : List ℚ
  category_days : List (List ℚ)
  category_total : List ℚ
  task_valid : List (List ℚ)
  task_duration : List ℚ
  task_chunk_min : List ℚ
  task_chunk_max : List ℚ
  task_before : List (List ℚ)
  task_after : List (List ℚ)
  task_spread : List ℚ

/-- CalendarSolver.__init__ (lines 35-98): every parameter is copied into
an attribute, task_spread defaults to np.zeros(num_tasks), the index sets
and the abstract model are built from the three counts alone, and no array
dimension is ever inspected: construction succeeds for every bundle. -/
def initSolver (p : RawParams) : Except ConstructionError RawSolver :=
  .ok
    { num_categories := p.num_categories
      num_tasks := p.num_tasks
      num_timeslots := p.num_timeslots
      task_category := p.task_category
      category_min := p.category_min
      category_max := p.category_max
      category_days := p.category_days
      category_total := p.category_total
      task_valid := p.task_valid
      task_duration := p.task_duration
      task_chunk_min := p.task_chunk_min
      task_chunk_max := p.task_chunk_max
      task_before := p.task_before
      task_after := p.task_after
      task_spread := p.task_spread.getD (List.replicate p.num_tasks 0) }

/-- Whether an Except value carries a success. -/
def isOkE {ε α : Type} : Except ε α → Bool
  | .ok _ => true
  | .error _ => false

/-- Modelled from the spec (section 6): every array dimensioned exactly T,
N or K as appropriate.  Stated only to compare the claimed contract with
initSolver; the source performs no such check. -/
def specWellDimensioned (p : RawParams) : Prop :=
  p.task_category.length = p.num_tasks ∧
  (∀ r ∈ p.task_category, r.length = p.num_categories) ∧
  p.category_min.length = p.num_categories ∧
  p.category_max.length = p.num_categories ∧
  p.category_days.length = 7 ∧
  (∀ r ∈ p.category_days, r.length = p.num_categories) ∧
  p.category_total.length = p.num_categories ∧
  p.task_valid.length = p.num_timeslots ∧
  (∀ r ∈ p.task_valid, r.length = p.num_tasks) ∧
  p.task_duration.length = p.num_tasks ∧
  p.task_chunk_min.length = p.num_tasks ∧
  p.task_chunk_max.length = p.num_tasks ∧
  p.task_before.length = p.num_tasks ∧
  p.task_after.length = p.num_tasks ∧
  (∀ sp ∈ p.task_spread, sp.length = p.num_tasks)

/-- The one Python error kind relevant here: ZeroDivisionError. -/
inductive PyError where
  | zeroDivision
deriving DecidableEq

/-- Instantiating the constrain_cat_days0 family (model.create_instance
runs the rule of lines 231-241 once per (day, category) index): each
application divides the member-task sum by cat_days_den p k.  The solver
library's expression generation simplifies a zero coefficient times a
variable to the native constant 0, so when every coefficient
task_category[j, k] of the column is zero, the generator sum is the plain
int 0 and the division follows numpy scalar semantics: 0 / 0.0 yields nan
with a RuntimeWarning, no exception.  Only a numerator that survives as a
solver expression, divided by the constant zero, raises
ZeroDivisionError.  The loop mirrors Python's first-raise-wins
iteration. -/
def catDays0Loop (p : Params) : List (ℕ × ℕ) → Except PyError Unit
  | [] => .ok ()
  | x :: rest =>
      if (∃ j ∈ Finset.range p.num_tasks, p.task_category j x.2 ≠ 0) ∧
          cat_days_den p x.2 = 0 then
        .error .zeroDivision
      else catDays0Loop p rest

/-- The (day, category) index pairs of constrain_cat_days0, as pyomo
iterates dayslots x categories. -/
def catDays0Index (p : Params) : List (ℕ × ℕ) :=
  (List.range 7).flatMap fun s => (List.range p.num_categories).map fun k => (s, k)

/-- Outcome of constructing the constrain_cat_days0 family at instance
creation. -/
def constrain_cat_days0_build (p : Params) : Except PyError Unit :=
  catDays0Loop p (catDays0Index p)

/-- A single-task, single-category bundle over a full 672-slot week
(7 days at 4 slots/hour) with no valid slots, zero durations and no
category demands; the empty schedule is feasible for it. -/
def pZero : Params where
  num_categories := 1
  num_tasks := 1
  num_timeslots := 672
  task_category := fun _ _ => 1
  category_min := fun _ => 0
  category_max := fun _ => 0
  category_days := fun _ _ => 0
  category_total := fun _ => 0
  task_valid := fun _ _ => 0
  task_duration := fun _ => 0
  task_chunk_min := fun _ => 1
  task_chunk_max := fun _ => 1
  task_spread := fun _ => 1
  utilities := fun _ _ => 0

/-- The all-zero valuation: nothing scheduled, every accounting variable
zero. -/
def zeroAssign : Assign where
  A := fun _ _ => 0
  A_total := 0
  A2 := fun _ _ => 0
  A2_total := 0
  A3 := fun _ _ => 0
  A3_total := 0
  S := fun _ _ => 0
  S_total := 0
  S_cat := fun _ _ => 0
  S_cat_total := fun _ => 0
  T_end := fun _ _ => 0
  CTu := fun _ _ => 0
  CTl := fun _ _ => 0
  CTu_total := 0
  CTl_total := 0
  C_total := fun _ => 0
  D := fun _ _ => 0
  D_total := fun _ => 0

lemma isBool_zero : isBool 0 := Or.inl rfl

lemma isBool_one : isBool 1 := Or.inr rfl

lemma isInt_zero : isInt 0 := rfl

lemma isInt_one : isInt 1 := rfl

/-- The empty schedule satisfies every installed constraint of the pZero
model. -/
lemma zeroFeasible : Feasible pZero zeroAssign where
  dom_A := fun _ _ _ _ => isBool_zero
  dom_A2 := fun _ _ _ _ => isBool_zero
  dom_A3 := fun _ _ _ _ => isBool_zero
  dom_S := fun _ _ _ _ => isInt_zero
  dom_S_cat := fun _ _ _ _ => isBool_zero
  dom_S_cat_total := fun _ _ => isInt_zero
  dom_T_end := by
    intro s _ j _
    refine ⟨isInt_zero, le_refl 0, ?_⟩
    norm_num [pZero, zeroAssign]
  dom_CTu := fun _ _ _ _ => isInt_zero
  dom_CTl := fun _ _ _ _ => isInt_zero
  dom_D := fun _ _ _ _ => isBool_zero
  dom_D_total := fun _ _ => isInt_zero
  constrain_cat_duration0 := by
    intro k _
    simp [catAlloc, zeroAssign]
  constrain_cat_days0 := by
    intro s _ k _
    simp [catDayFrac, zeroAssign, EPS]
    norm_num
  constrain_cat_days1 := by
    intro k _
    simp [zeroAssign]
  constrain_A_total := by simp [utilTotalA, zeroAssign]
  constrain_A2_total := by simp [utilTotalA2, zeroAssign]
  constrain_A3_total := by simp [utilTotalA3, zeroAssign]
  constrain_cat_duration1 := by
    intro k _
    simp [pZero, zeroAssign]
  constrain_valid := by
    intro t _ j _
    simp [zeroAssign]
  constrain_valid20 := by
    intro t _ j _
    simp [zeroAssign]
  constrain_valid21 := by
    intro t _ j _
    split <;> simp [zeroAssign]
  constrain_valid30 := by
    intro t _ j _
    simp [zeroAssign]
  constrain_valid31 := by
    intro t _ j _
    split <;> simp [zeroAssign]
  constrain_valid32 := by
    intro t _ j _
    split <;> simp [zeroAssign]
  constrain_nonoverlapping := by
    intro t _
    constructor <;> simp [overlapLoad, zeroAssign]
  constrain_task_duration := by
    intro j _
    simp [weightedAlloc, pZero, zeroAssign]
  constrain_contiguity_u := by
    intro i _ j _
    have h : pZero.task_spread j = 1 := rfl
    simp [ctuFrac, zeroAssign, h, EPS, SLACK]
    norm_num
  constrain_contiguity_l := by
    intro i _ j _
    have h : pZero.task_spread j = 1 := rfl
    simp [ctlFrac, zeroAssign, h, EPS, SLACK]
    norm_num
  constrain_contiguity_ut := by simp [zeroAssign]
  constrain_contiguity_lt := by simp [zeroAssign]
  constrain_spread0 := by
    intro s _ j _
    simp [spreadFrac, zeroAssign, EPS]
    norm_num
  constrain_spread1 := by simp [zeroAssign]
  constrain_cat_days2 := by
    intro s _ k _
    simp [pZero, zeroAssign]
  constrain_cat_days3 := by
    intro k _
    simp [pZero, zeroAssign]
  constrain_chunk_min := by
    intro j _
    have h : pZero.task_chunk_min j = 1 := rfl
    simp only [chunkMinCon, h]
    norm_num
  constrain_chunk_max := by
    intro j _
    have h : pZero.task_chunk_max j = 1 := rfl
    simp only [chunkMaxCon, h]
    rw [if_pos (by norm_num)]
    simp [zeroAssign]

/-- Sum of an interval indicator over an initial segment counts the
interval length. -/
lemma sum_ind (a b n : ℕ) (_hab : a ≤ b) (hbn : b ≤ n) :
    (∑ i ∈ Finset.range n, if a ≤ i ∧ i < b then (1 : ℚ) else 0) = ((b - a : ℕ) : ℚ) := by
  have h1 : ∀ i ∈ Finset.range n,
      (if a ≤ i ∧ i < b then (1 : ℚ) else 0) = if i ∈ Finset.Ico a b then 1 else 0 := by
    intro i _
    simp [Finset.mem_Ico]
  rw [Finset.sum_congr rfl h1, Finset.sum_ite_mem]
  have h2 : Finset.range n ∩ Finset.Ico a b = Finset.Ico a b := by
    rw [Finset.inter_eq_right]
    intro x hx
    rw [Finset.mem_Ico] at hx
    rw [Finset.mem_range]
    omega
  rw [h2]
  simp [Nat.card_Ico]

/-- Sum of a point indicator at 0 over a nonempty initial segment. -/
lemma sum_ite_zero (n : ℕ) (hn : 0 < n) (c : ℚ) :
    (∑ i ∈ Finset.range n, if i = 0 then c else 0) = c := by
  rw [Finset.sum_ite_eq' (Finset.range n) 0 fun _ => c]
  simp [hn]

/-- Failing-input bundle for the chunk-minimum claim: one task over the
672-slot week with task_chunk_min = task_chunk_max = 3, duration 2, every
slot valid, and one category containing the task with generous bounds. -/
def p2 : Params where
  num_categories := 1
  num_tasks := 1
  num_timeslots := 672
  task_category := fun _ _ => 1
  category_min := fun _ => 0
  category_max := fun _ => 10
  category_days := fun _ _ => 0
  category_total := fun _ => 0
  task_valid := fun _ _ => 1
  task_duration := fun _ => 2
  task_chunk_min := fun _ => 3
  task_chunk_max := fun _ => 3
  task_spread := fun _ => 1
  utilities := fun _ _ => 0

/-- A valuation scheduling exactly one 2-slot block of task 0 at the start
of the week (A2[0,0] = 1), with the matching accounting values. -/
def a2 : Assign where
  A := fun _ _ => 0
  A_total := 0
  A2 := fun t _ => if t = 0 then 1 else 0
  A2_total := 0
  A3 := fun _ _ => 0
  A3_total := 0
  S := fun s _ => if s = 0 then 1 else 0
  S_total := 5/7
  S_cat := fun s _ => if s = 0 then 1 else 0
  S_cat_total := fun _ => 1
  T_end := fun _ _ => 0
  CTu := fun _ _ => 0
  CTl := fun _ _ => 0
  CTu_total := 0
  CTl_total := 0
  C_total := fun _ => 2
  D := fun _ _ => 0
  D_total := fun _ => 0

/-- The single 2-slot block at the week start satisfies every installed
constraint of the p2 model, although task 0 has task_chunk_min = 3: the
task_chunk_min >= 3 branch of constrain_chunk_min is unreachable and the
matched-filter chunking constraints are never installed. -/
lemma feasible_p2 : Feasible p2 a2 where
  dom_A := fun _ _ _ _ => isBool_zero
  dom_A2 := by
    intro t _ j _
    by_cases h : t = 0 <;> simp [a2, h, isBool]
  dom_A3 := fun _ _ _ _ => isBool_zero
  dom_S := by
    intro s _ j _
    by_cases h : s = 0 <;> simp [a2, h, isInt_one, isInt_zero]
  dom_S_cat := by
    intro s _ k _
    by_cases h : s = 0 <;> simp [a2, h, isBool]
  dom_S_cat_total := fun _ _ => isInt_one
  dom_T_end := by
    intro s _ j _
    refine ⟨isInt_zero, le_refl 0, ?_⟩
    norm_num [p2, a2]
  dom_CTu := fun _ _ _ _ => isInt_zero
  dom_CTl := fun _ _ _ _ => isInt_zero
  dom_D := fun _ _ _ _ => isBool_zero
  dom_D_total := fun _ _ => isInt_zero
  constrain_cat_duration0 := by
    intro k _
    have h : catAlloc p2 a2 k = 2 := by
      show
        (∑ i ∈ Finset.range 672, ∑ j ∈ Finset.range 1, a2.A i j * p2.task_category j k)
          + 2 * (∑ i ∈ Finset.range 671, ∑ j ∈ Finset.range 1,
              a2.A2 i j * p2.task_category j k)
          + 3 * (∑ i ∈ Finset.range 670, ∑ j ∈ Finset.range 1,
              a2.A3 i j * p2.task_category j k) = 2
      norm_num [a2, p2, Finset.sum_range_one]
    rw [h]
    rfl
  constrain_cat_days0 := by
    intro s _ k _
    have hden : cat_days_den p2 k = 1 := by
      simp [cat_days_den, p2]
    have hfrac : catDayFrac p2 a2 s k = a2.S s 0 := by
      simp only [catDayFrac, hden]
      show (∑ j ∈ Finset.range 1, p2.task_category j k * a2.S s j) / 1 = a2.S s 0
      norm_num [Finset.sum_range_one, p2]
    rw [hfrac]
    by_cases h : s = 0 <;> simp [a2, h, EPS] <;> norm_num
  constrain_cat_days1 := by
    intro k _
    show (1 : ℚ) = ∑ s ∈ Finset.range 7, a2.S_cat s k
    simp [a2]
  constrain_A_total := by simp [utilTotalA, p2, a2]
  constrain_A2_total := by simp [utilTotalA2, p2, a2]
  constrain_A3_total := by simp [utilTotalA3, p2, a2]
  constrain_cat_duration1 := by
    intro k _
    constructor <;> simp [p2, a2] <;> norm_num
  constrain_valid := by
    intro t _ j _
    simp [a2]
  constrain_valid20 := by
    intro t _ j _
    simp [a2, p2]
  constrain_valid21 := by
    intro t _ j _
    split
    next h =>
      have h671 : t = 671 := by
        simpa [p2] using h
      subst h671
      simp [a2]
    next h => simp [a2, p2]
  constrain_valid30 := by
    intro t _ j _
    simp [a2]
  constrain_valid31 := by
    intro t _ j _
    split <;> simp [a2]
  constrain_valid32 := by
    intro t _ j _
    split <;> simp [a2]
  constrain_nonoverlapping := by
    intro t _
    by_cases h0 : t = 0
    · subst h0
      constructor <;> simp [overlapLoad, p2, a2, Finset.sum_range_one]
    by_cases h1 : t = 1
    · subst h1
      constructor <;> simp [overlapLoad, p2, a2, Finset.sum_range_one]
    · have ht1 : t - 1 ≠ 0 := by omega
      have ht0 : 0 < t := by omega
      constructor <;>
        simp [overlapLoad, p2, a2, Finset.sum_range_one, h0, ht0, ht1]
  constrain_task_duration := by
    intro j _
    have h : weightedAlloc p2 a2 j = 2 := by
      show
        (∑ t ∈ Finset.range 672, a2.A t j)
          + 2 * (∑ t ∈ Finset.range 671, a2.A2 t j)
          + 3 * (∑ t ∈ Finset.range 670, a2.A3 t j) = 2
      norm_num [a2]
    rw [h]
    constructor <;> norm_num [p2]
  constrain_contiguity_u := by
    intro i _ j _
    have h : p2.task_spread j = 1 := rfl
    simp [ctuFrac, a2, h, EPS, SLACK]
    norm_num
  constrain_contiguity_l := by
    intro i _ j _
    have h : p2.task_spread j = 1 := rfl
    simp [ctlFrac, a2, h, EPS, SLACK]
    norm_num
  constrain_contiguity_ut := by simp [a2]
  constrain_contiguity_lt := by simp [a2]
  constrain_spread0 := by
    intro s hs j _
    have hd : dayIncr = 96 := rfl
    have hden : (∑ i ∈ Finset.range p2.num_timeslots, blockdiag s i) = 96 := by
      show (∑ i ∈ Finset.range 672, blockdiag s i) = 96
      have h1 := sum_ind (s * 96) ((s + 1) * 96) 672 (by omega) (by omega)
      simp only [blockdiag, hd]
      rw [h1]
      have h2 : (s + 1) * 96 - s * 96 = 96 := by omega
      rw [h2]
      norm_num
    have hnum : (∑ i ∈ Finset.range p2.num_timeslots,
        blockdiag s i * (a2.A i j + 2 * a2.A2 i j + 3 * a2.A3 i j))
          = if s = 0 then 2 else 0 := by
      show (∑ i ∈ Finset.range 672,
        blockdiag s i * (a2.A i j + 2 * a2.A2 i j + 3 * a2.A3 i j)) = _
      rw [Finset.sum_eq_single_of_mem 0 (by simp)]
      · by_cases h : s = 0 <;> simp [blockdiag, a2, hd, h]
      · intro b _ hb
        simp [a2, hb]
    have hfrac : spreadFrac p2 a2 s j = if s = 0 then 1/48 else 0 := by
      rw [spreadFrac, hnum, hden]
      by_cases h : s = 0 <;> simp [h] <;> norm_num
    rw [hfrac]
    by_cases h : s = 0 <;> simp [a2, h, EPS] <;> norm_num
  constrain_spread1 := by
    have hds : daySlots p2 = 7 := rfl
    have h : (∑ s ∈ Finset.range 7, ∑ j ∈ Finset.range p2.num_tasks,
        p2.task_spread j * a2.S s j) = 1 := by
      show (∑ s ∈ Finset.range 7, ∑ j ∈ Finset.range 1, p2.task_spread j * a2.S s j) = 1
      norm_num [Finset.sum_range_one, p2, a2]
    rw [h, hds]
    show a2.S_total = 1 / ((p2.num_tasks : ℚ) * ((7 : ℕ) : ℚ)) * 5
    norm_num [p2, a2]
  constrain_cat_days2 := by
    intro s _ k _
    by_cases h : s = 0 <;> simp [p2, a2, h]
  constrain_cat_days3 := by
    intro k _
    norm_num [p2, a2]
  constrain_chunk_min := by
    intro j _
    have h : p2.task_chunk_min j = 3 := rfl
    simp only [chunkMinCon, h]
    rw [if_pos (by norm_num)]
    simp [a2]
  constrain_chunk_max := by
    intro j _
    have h : p2.task_chunk_max j = 3 := rfl
    simp only [chunkMaxCon, h]
    rw [if_neg (by norm_num), if_neg (by norm_num)]
    trivial

/-- On a feasible valuation the full-range A2 column sum equals the
timeslots2 sum: the 2-slot start at the last slot is forced to zero by
constrain_valid21. -/
lemma sum_A2_full_eq (p : Params) (a : Assign) (h : Feasible p a) (j : ℕ)
    (hj : j < p.num_tasks) :
    (∑ t ∈ Finset.range p.num_timeslots, a.A2 t j)
      = ∑ t ∈ Finset.range (p.num_timeslots - 1), a.A2 t j := by
  rcases Nat.eq_zero_or_pos p.num_timeslots with hT | hT
  · simp [hT]
  · obtain ⟨n, hn⟩ : ∃ n, p.num_timeslots = n + 1 := ⟨p.num_timeslots - 1, by omega⟩
    have hlast := h.constrain_valid21 n (by omega) j hj
    rw [if_pos (by omega)] at hlast
    rw [hn, Finset.sum_range_succ, hlast, add_zero]
    norm_num

/-- On a feasible valuation the full-range A3 column sum equals the
timeslots3 sum: 3-slot starts in the last two slots are forced to zero by
constrain_valid31. -/
lemma sum_A3_full_eq (p : Params) (a : Assign) (h : Feasible p a) (j : ℕ)
    (hj : j < p.num_tasks) :
    (∑ t ∈ Finset.range p.num_timeslots, a.A3 t j)
      = ∑ t ∈ Finset.range (p.num_timeslots - 2), a.A3 t j := by
  by_cases h0 : p.num_timeslots = 0
  · simp [h0]
  by_cases h1 : p.num_timeslots = 1
  · have ha := h.constrain_valid31 0 (by omega) j hj
    rw [if_pos (by omega)] at ha
    rw [h1]
    simp [Finset.sum_range_one, ha]
  · obtain ⟨n, hn⟩ : ∃ n, p.num_timeslots = n + 2 := ⟨p.num_timeslots - 2, by omega⟩
    have ha := h.constrain_valid31 n (by omega) j hj
    have hb := h.constrain_valid31 (n + 1) (by omega) j hj
    rw [if_pos (by omega)] at ha
    rw [if_pos (by omega)] at hb
    rw [hn, Finset.sum_range_succ, Finset.sum_range_succ, ha, hb, add_zero, add_zero]
    norm_num

/-- The cat-days construction loop finishes when no visited category pairs
a surviving (nonzero-coefficient) numerator with a zero denominator. -/
lemma catDays0Loop_ok_of (p : Params) (l : List (ℕ × ℕ))
    (h : ∀ x ∈ l, ¬ ((∃ j ∈ Finset.range p.num_tasks, p.task_category j x.2 ≠ 0) ∧
        cat_days_den p x.2 = 0)) :
    catDays0Loop p l = .ok () := by
  induction l with
  | nil => rfl
  | cons y rest ih =>
      simp only [catDays0Loop]
      rw [if_neg (h y (List.mem_cons_self y rest))]
      exact ih fun x hx => h x (List.mem_cons_of_mem y hx)

/-- Claim C1: in every feasible allocation of the constructed model, for
every timeslot t in [0, T) the sum over all tasks of A[t,j] + A2[t,j] +
A3[t,j], plus the look-back terms A2[t-1,j] and A3[t-1,j] when t >= 1 and
A3[t-2,j] when t >= 2, is at most 1 (constrain_nonoverlapping). -/
theorem claim_C1 (p : Params) (a : Assign) (h : Feasible p a) (t : ℕ)
    (ht : t < p.num_timeslots) : overlapLoad p a t ≤ 1 :=
  (h.constrain_nonoverlapping t ht).2

/-- Witness for claim C1: the empty schedule of the pZero model at t = 0. -/
theorem claim_C1_witness :
    Feasible pZero zeroAssign ∧ 0 < pZero.num_timeslots ∧
      overlapLoad pZero zeroAssign 0 ≤ 1 :=
  ⟨zeroFeasible, by norm_num [pZero],
    claim_C1 pZero zeroAssign zeroFeasible 0 (by norm_num [pZero])⟩

/-- Claim C2 (code bug, evaluated at the failing input): the claim says a
task j with chunkMin[j] > L cannot exhibit an isolated block of exactly L
consecutive assigned slots, but the valuation a2 with the single 2-slot
block A2[0,0] = 1 is feasible for the p2 model although
task_chunk_min 0 = 3 > 2: the task_chunk_min >= 3 branch of
constrain_chunk_min is unreachable (shadowed by the >= 2 branch) and the
matched-filter chunking constraints are never installed by _construct_ip,
so the length-2 isolated-block pattern is not forbidden. -/
theorem claim_C2_bug :
    Feasible p2 a2 ∧ (2 : ℚ) < p2.task_chunk_min 0 ∧ isolatedBlock p2 a2 0 0 2 := by
  refine ⟨feasible_p2, by norm_num [p2], ?_, ?_, ?_, ?_, ?_⟩
  · norm_num [p2]
  · norm_num
  · intro d hd
    interval_cases d <;> norm_num [occupied, a2]
  · left
    rfl
  · right
    norm_num [occupied, a2]

/-- Claim C3 counterexample: a caller who wants a wall-clock limit of 1
second cannot have it passed through; the solver receives TIMELIMIT = 300
instead. -/
theorem claim_C3_counterexample : timelimitPassed 1 ≠ 1 := by
  norm_num [timelimitPassed, optimizeSolveCall, TIMELIMIT]

/-- Claim C3 (amended): the solve step delegates synchronously to the
external solver but accepts no caller-supplied time limit; optimize()
always passes the module constant TIMELIMIT = 300 seconds, unmodified, to
opt.solve, whatever limit the caller would request. -/
theorem claim_C3 (req : ℚ) : timelimitPassed req = 300 := rfl

/-- An ill-dimensioned bundle: one task and two timeslots are declared but
every array is empty. -/
def pBad : RawParams where
  num_categories := 1
  num_tasks := 1
  num_timeslots := 2
  task_category := []
  category_min := []
  category_max := []
  category_days := []
  category_total := []
  task_valid := []
  task_duration := []
  task_chunk_min := []
  task_chunk_max := []
  task_before := []
  task_after := []
  task_spread := none

/-- Claim C4 counterexample: pBad is not dimensioned T/N/K as required,
yet CalendarSolver construction succeeds instead of raising a
construction error. -/
theorem claim_C4_counterexample :
    ¬ specWellDimensioned pBad ∧ isOkE (initSolver pBad) = true := by
  constructor
  · intro hw
    have h1 := hw.1
    simp [pBad] at h1
  · rfl

/-- Claim C4 (amended): CalendarSolver.__init__ performs no dimension
validation and defines no ConstructionError; construction succeeds without
raising for every parameter bundle, whatever the array shapes, before any
solver call. -/
theorem claim_C4 (p : RawParams) : isOkE (initSolver p) = true := rfl

/-- Claim C5: in every feasible allocation, validMask forcing holds: an
invalid (t, j) forces A[t,j] = 0; A2[t,j] is forced to 0 whenever slot t
or slot t+1 is invalid for j; A3[t,j] is forced to 0 whenever any of slots
t, t+1, t+2 is invalid for j (constrain_valid .. constrain_valid32). -/
theorem claim_C5 (p : Params) (a : Assign) (h : Feasible p a) (t j : ℕ)
    (ht : t < p.num_timeslots) (hj : j < p.num_tasks) :
    (p.task_valid t j = 0 → a.A t j = 0) ∧
      ((p.task_valid t j = 0 ∨ (t + 1 < p.num_timeslots ∧ p.task_valid (t + 1) j = 0)) →
        a.A2 t j = 0) ∧
      ((p.task_valid t j = 0 ∨ (t + 1 < p.num_timeslots ∧ p.task_valid (t + 1) j = 0) ∨
          (t + 2 < p.num_timeslots ∧ p.task_valid (t + 2) j = 0)) →
        a.A3 t j = 0) := by
  refine ⟨?_, ?_, ?_⟩
  · intro hv
    have h1 := h.constrain_valid t ht j hj
    rw [hv] at h1
    simpa using h1
  · intro hd
    rcases hd with hv | ⟨hlt, hv⟩
    · have h1 := h.constrain_valid20 t ht j hj
      rw [hv] at h1
      simpa using h1
    · have h1 := h.constrain_valid21 t ht j hj
      rw [if_neg (by omega)] at h1
      rw [hv] at h1
      simpa using h1
  · intro hd
    by_cases hc : p.num_timeslots - 2 ≤ t
    · have h1 := h.constrain_valid31 t ht j hj
      rwa [if_pos hc] at h1
    · rcases hd with hv | ⟨_, hv⟩ | ⟨_, hv⟩
      · have h1 := h.constrain_valid30 t ht j hj
        rw [hv] at h1
        simpa using h1
      · have h1 := h.constrain_valid31 t ht j hj
        rw [if_neg hc, hv] at h1
        simpa using h1
      · have h1 := h.constrain_valid32 t ht j hj
        rw [if_neg hc, hv] at h1
        simpa using h1

/-- Witness for claim C5: the empty schedule of the pZero model at
(t, j) = (0, 0), whose slot is invalid. -/
theorem claim_C5_witness :
    Feasible pZero zeroAssign ∧ 0 < pZero.num_timeslots ∧ 0 < pZero.num_tasks ∧
      ((pZero.task_valid 0 0 = 0 → zeroAssign.A 0 0 = 0) ∧
        ((pZero.task_valid 0 0 = 0 ∨
            (0 + 1 < pZero.num_timeslots ∧ pZero.task_valid (0 + 1) 0 = 0)) →
          zeroAssign.A2 0 0 = 0) ∧
        ((pZero.task_valid 0 0 = 0 ∨
            (0 + 1 < pZero.num_timeslots ∧ pZero.task_valid (0 + 1) 0 = 0) ∨
            (0 + 2 < pZero.num_timeslots ∧ pZero.task_valid (0 + 2) 0 = 0)) →
          zeroAssign.A3 0 0 = 0)) :=
  ⟨zeroFeasible, by norm_num [pZero], by norm_num [pZero],
    claim_C5 pZero zeroAssign zeroFeasible 0 0 (by norm_num [pZero]) (by norm_num [pZero])⟩

/-- Claim C6: in every feasible allocation the resolution-weighted
allocated total of each task j (A weighted 1x, A2 weighted 2x, A3 weighted
3x) lies in [0, duration[j]] (constrain_task_duration, with the late
multi-slot starts forced to zero so that full-range sums agree). -/
theorem claim_C6 (p : Params) (a : Assign) (h : Feasible p a) (j : ℕ)
    (hj : j < p.num_tasks) :
    0 ≤ weightedAllocFull p a j ∧ weightedAllocFull p a j ≤ p.task_duration j := by
  have key : weightedAllocFull p a j = weightedAlloc p a j := by
    simp only [weightedAllocFull, weightedAlloc]
    rw [sum_A2_full_eq p a h j hj, sum_A3_full_eq p a h j hj]
  rw [key]
  exact h.constrain_task_duration j hj

/-- Witness for claim C6: the empty schedule of the pZero model at task 0. -/
theorem claim_C6_witness :
    Feasible pZero zeroAssign ∧ 0 < pZero.num_tasks ∧
      (0 ≤ weightedAllocFull pZero zeroAssign 0 ∧
        weightedAllocFull pZero zeroAssign 0 ≤ pZero.task_duration 0) :=
  ⟨zeroFeasible, by norm_num [pZero],
    claim_C6 pZero zeroAssign zeroFeasible 0 (by norm_num [pZero])⟩

/-- Claim C7: for every task j with chunkMin[j] = chunkMax[j] = 1, every
feasible allocation has A2[t,j] = 0 and A3[t,j] = 0 at every timeslot: the
chunk_max <= 1 branch of constrain_chunk_max bounds the sum of the
boolean A2 and A3 columns by zero. -/
theorem claim_C7 (p : Params) (a : Assign) (h : Feasible p a) (j : ℕ)
    (hj : j < p.num_tasks) (_hmin : p.task_chunk_min j = 1)
    (hmax : p.task_chunk_max j = 1) (t : ℕ) (ht : t < p.num_timeslots) :
    a.A2 t j = 0 ∧ a.A3 t j = 0 := by
  have hc := h.constrain_chunk_max j hj
  simp only [chunkMaxCon] at hc
  rw [if_pos (by simp [hmax])] at hc
  have hnn : ∀ i ∈ Finset.range p.num_timeslots, 0 ≤ a.A2 i j + a.A3 i j := by
    intro i hi
    have hi2 := Finset.mem_range.mp hi
    rcases h.dom_A2 i hi2 j hj with h2 | h2 <;>
      rcases h.dom_A3 i hi2 j hj with h3 | h3 <;> rw [h2, h3] <;> norm_num
  have hsum : (∑ i ∈ Finset.range p.num_timeslots, (a.A2 i j + a.A3 i j)) = 0 :=
    le_antisymm hc (Finset.sum_nonneg hnn)
  have hz := (Finset.sum_eq_zero_iff_of_nonneg hnn).mp hsum t (Finset.mem_range.mpr ht)
  rcases h.dom_A2 t ht j hj with h2 | h2 <;>
    rcases h.dom_A3 t ht j hj with h3 | h3 <;> rw [h2, h3] at hz <;>
    norm_num at hz <;> exact ⟨h2, h3⟩

/-- Witness for claim C7: the empty schedule of the pZero model, whose one
task has chunk_min = chunk_max = 1. -/
theorem claim_C7_witness :
    Feasible pZero zeroAssign ∧ 0 < pZero.num_tasks ∧
      pZero.task_chunk_min 0 = 1 ∧ pZero.task_chunk_max 0 = 1 ∧
      0 < pZero.num_timeslots ∧
      (zeroAssign.A2 0 0 = 0 ∧ zeroAssign.A3 0 0 = 0) :=
  ⟨zeroFeasible, by norm_num [pZero], rfl, rfl, by norm_num [pZero],
    claim_C7 pZero zeroAssign zeroFeasible 0 (by norm_num [pZero]) rfl rfl 0
      (by norm_num [pZero])⟩

/-- Claim C8: in the default configuration the objective is exactly total
utility across all resolutions, as the minimized negation
-(A_total + A2_total + A3_total), where the definitional utility
constraints fix A_total, A2_total and A3_total to the 1x/2x/3x weighted
utility sums; no contiguity, spread or switching term appears in
obj_cost. -/
theorem claim_C8 (p : Params) (a : Assign) (h : Feasible p a) :
    obj_cost a = -(utilTotalA p a + 2 * utilTotalA2 p a + 3 * utilTotalA3 p a) := by
  show -(a.A_total + a.A2_total + a.A3_total) = _
  rw [h.constrain_A_total, h.constrain_A2_total, h.constrain_A3_total]

/-- Witness for claim C8: the empty schedule of the pZero model. -/
theorem claim_C8_witness :
    Feasible pZero zeroAssign ∧
      obj_cost zeroAssign =
        -(utilTotalA pZero zeroAssign + 2 * utilTotalA2 pZero zeroAssign +
          3 * utilTotalA3 pZero zeroAssign) :=
  ⟨zeroFeasible, claim_C8 pZero zeroAssign zeroFeasible⟩

/-- Claim C9: for every task j the model unconditionally forces
A2[T-1,j] = 0 and A3[T-2,j] = A3[T-1,j] = 0, independently of validMask
(the boundary branches of constrain_valid21 and constrain_valid31). -/
theorem claim_C9 (p : Params) (a : Assign) (h : Feasible p a) (j : ℕ)
    (hj : j < p.num_tasks) :
    (1 ≤ p.num_timeslots → a.A2 (p.num_timeslots - 1) j = 0) ∧
      (2 ≤ p.num_timeslots →
        a.A3 (p.num_timeslots - 2) j = 0 ∧ a.A3 (p.num_timeslots - 1) j = 0) := by
  constructor
  · intro hT
    have h1 := h.constrain_valid21 (p.num_timeslots - 1) (by omega) j hj
    rwa [if_pos rfl] at h1
  · intro hT
    have ha := h.constrain_valid31 (p.num_timeslots - 2) (by omega) j hj
    have hb := h.constrain_valid31 (p.num_timeslots - 1) (by omega) j hj
    rw [if_pos (by omega)] at ha
    rw [if_pos (by omega)] at hb
    exact ⟨ha, hb⟩

/-- Witness for claim C9: the empty schedule of the pZero model at task 0. -/
theorem claim_C9_witness :
    Feasible pZero zeroAssign ∧ 0 < pZero.num_tasks ∧
      ((1 ≤ pZero.num_timeslots → zeroAssign.A2 (pZero.num_timeslots - 1) 0 = 0) ∧
        (2 ≤ pZero.num_timeslots →
          zeroAssign.A3 (pZero.num_timeslots - 2) 0 = 0 ∧
            zeroAssign.A3 (pZero.num_timeslots - 1) 0 = 0)) :=
  ⟨zeroFeasible, by norm_num [pZero],
    claim_C9 pZero zeroAssign zeroFeasible 0 (by norm_num [pZero])⟩

/-- Bundle whose single category has no member tasks. -/
def p10 : Params := { pZero with task_category := fun _ _ => 0 }

/-- Claim C10 counterexample: the p10 bundle's single category has zero
member tasks, yet building the constrain_cat_days0 family does not stop
with the division-by-zero error the claim predicts: the all-zero numerator
is simplified to the native constant 0 before the division, which then
yields nan under numpy scalar semantics instead of raising. -/
theorem claim_C10_counterexample :
    (∃ k < p10.num_categories, ∀ j < p10.num_tasks, p10.task_category j k = 0) ∧
      constrain_cat_days0_build p10 ≠ .error PyError.zeroDivision := by
  refine ⟨⟨0, by norm_num [p10, pZero], fun j _ => rfl⟩, ?_⟩
  have h : constrain_cat_days0_build p10 = Except.ok () := by
    apply catDays0Loop_ok_of
    intro x _
    rintro ⟨⟨j, _, hjne⟩, -⟩
    exact hjne rfl
  rw [h]
  intro hco
  exact Except.noConfusion hco

/-- Claim C10 (amended): a category with zero member tasks does not make
model instantiation fail with a division-by-zero.  Each zero coefficient
task_category[j,k] times S[s,j] is simplified to the native constant 0, so
the empty category's numerator is the plain int 0 and the division by the
zero column sum follows numpy scalar semantics, yielding nan with a
RuntimeWarning rather than an exception: for every bundle with entrywise
nonnegative task_category — any 0/1 membership matrix, empty categories
included — building the constrain_cat_days0 family succeeds.  A
ZeroDivisionError would need a column summing to zero while containing a
nonzero coefficient. -/
theorem claim_C10 (p : Params)
    (hnn : ∀ j < p.num_tasks, ∀ k < p.num_categories, 0 ≤ p.task_category j k)
    (_hempty : ∃ k < p.num_categories, ∀ j < p.num_tasks, p.task_category j k = 0) :
    constrain_cat_days0_build p = .ok () := by
  apply catDays0Loop_ok_of
  intro x hx
  rintro ⟨⟨j, hj, hjne⟩, hden⟩
  have hk : x.2 < p.num_categories := by
    unfold catDays0Index at hx
    rcases List.mem_flatMap.mp hx with ⟨s, _, hs2⟩
    rcases List.mem_map.mp hs2 with ⟨k, hkmem, hkeq⟩
    have hklt := List.mem_range.mp hkmem
    rw [← hkeq]
    exact hklt
  have hnn2 : ∀ i ∈ Finset.range p.num_tasks, 0 ≤ p.task_category i x.2 :=
    fun i hi => hnn i (Finset.mem_range.mp hi) x.2 hk
  have hden2 : (∑ i ∈ Finset.range p.num_tasks, p.task_category i x.2) = 0 := hden
  exact hjne ((Finset.sum_eq_zero_iff_of_nonneg hnn2).mp hden2 j hj)

/-- Witness for claim C10: the p10 model, whose 0-valued membership matrix
is nonnegative and whose single category is empty, instantiates its
cat-days family without error. -/
theorem claim_C10_witness :
    (∀ j < p10.num_tasks, ∀ k < p10.num_categories, 0 ≤ p10.task_category j k) ∧
      (∃ k < p10.num_categories, ∀ j < p10.num_tasks, p10.task_category j k = 0) ∧
      constrain_cat_days0_build p10 = .ok () :=
  ⟨fun j _ k _ => le_refl 0, ⟨0, by norm_num [p10, pZero], fun j _ => rfl⟩,
    claim_C10 p10 (fun j _ k _ => le_refl 0)
      ⟨0, by norm_num [p10, pZero], fun j _ => rfl⟩⟩

end TimeAlloc
